import Mathlib

/-!
Shallow embedding of the Backend repository (a Flask HTTP wrapper around the
Backendless REST service) and proofs about its validation, error-mapping and
pagination logic.

Source files embedded:
- src/app/services/backendless_client.py (gateway layer)
- src/app/middleware/error_handler.py    (error-to-status mapping)
- src/app/middleware/auth.py             (require_auth decorator)
- src/app/models/schemas.py              (pydantic schemas)
- src/app/routes/subjects.py             (route handlers)
- src/app/utils/response_builder.py      (response envelopes)
-/

deriving instance DecidableEq for Except

namespace Backend

/-! ## Python string primitives

Executable models of the Python string operations the source uses:
str.strip, str.lower, and the substring test needle in hay. -/

/-- Model of Python str.strip(): drop whitespace from both ends. -/
def pyStrip (s : String) : String :=
  ⟨((s.toList.dropWhile Char.isWhitespace).reverse.dropWhile Char.isWhitespace).reverse⟩

/-- Model of Python str.lower() for the ASCII messages that occur here. -/
def pyLower (s : String) : String :=
  ⟨s.toList.map Char.toLower⟩

/-- needle is a leading segment of hay (both as character lists). -/
def charsStartWith : List Char → List Char → Bool
  | [], _ => true
  | _ :: _, [] => false
  | a :: as, b :: bs => a == b && charsStartWith as bs

/-- needle occurs somewhere inside hay (both as character lists). -/
def charsContain (needle : List Char) : List Char → Bool
  | [] => needle.isEmpty
  | b :: bs => charsStartWith needle (b :: bs) || charsContain needle bs

/-- Model of the Python test needle in hay on strings. -/
def pyIn (needle hay : String) : Bool :=
  charsContain needle.toList hay.toList

/-- A single-quote character as a string, used by the where-clause builder. -/
def squote : String :=
  String.singleton (Char.ofNat 39)

/-- Python truthiness filter on an optional string: None and the empty
string are falsy, anything else is kept.  Models the pattern
if details: ... used by error_response and the where-clause passing. -/
def truthyStr : Option String → Option String
  | none => none
  | some s => if s = "" then none else some s

/-! ## JSON payload values -/

/-- Scalar JSON values appearing in payloads this backend forwards. -/
inductive Value where
  | str (s : String)
  | int (n : Int)
deriving DecidableEq, Repr

/-! ## BackendlessClientError (src/app/services/backendless_client.py, lines 19 to 25) -/

/-- BackendlessClientError: message, optional status_code, optional details. -/
structure BackendlessClientError where
  message : String
  status_code : Option Int
  details : Option String
deriving DecidableEq, Repr

/-! ## Response builder (src/app/utils/response_builder.py) -/

/-- The JSON error envelope built by error_response: message, code, and a
details field that is omitted when falsy (absent or empty string). -/
structure ErrorResponse where
  message : String
  code : Int
  details : Option String
deriving DecidableEq, Repr

/-- error_response from src/app/utils/response_builder.py: keeps details
only when truthy (Python: if details). The HTTP status equals code. -/
def error_response (message : String) (code : Int) (details : Option String) : ErrorResponse :=
  { message := message, code := code, details := truthyStr details }

/-! ## Error handler (src/app/middleware/error_handler.py, handle_backendless_error) -/

/-- The Python expression error.status_code or 500: under Python
truthiness both None and 0 fall back to 500. -/
def pyOr500 : Option Int → Int
  | none => 500
  | some n => if n = 0 then 500 else n

/-- handle_backendless_error from src/app/middleware/error_handler.py,
lines 68 to 114.  status_code := error.status_code or 500 (Python or:
None and 0 are falsy), then the 404 / 401 / 403 heuristics on the
effective status and the lowercased message. -/
def handle_backendless_error (e : BackendlessClientError) : ErrorResponse :=
  let status_code : Int := pyOr500 e.status_code
  if status_code = 404 ∨ pyIn "not found" (pyLower e.message) = true then
    error_response "No encontrado" 404 (some e.message)
  else if status_code = 401 ∨ pyIn "invalid" (pyLower e.message) = true then
    error_response "Token inválido o expirado" 401 (some e.message)
  else if status_code = 403 then
    error_response "Acceso denegado" 403 (some e.message)
  else
    error_response (if e.message = "" then "Error en el servidor" else e.message)
      status_code e.details

/-! ## Gateway HTTP layer (src/app/services/backendless_client.py) -/

/-- The fields of a parsed remote JSON error/success body that
_handle_response reads, plus its Python str() rendering (for details). -/
structure RemoteBody where
  message : Option String
  code : Option Int
  asStr : String
deriving DecidableEq, Repr

/-- A raw HTTP response from the remote service.  body is none when the
response has no content or its body is not valid JSON; _handle_response
then falls back to the empty object. -/
structure HttpResponse where
  status_code : Nat
  body : Option RemoteBody
deriving DecidableEq, Repr

/-- response.json() if response.content else the empty object, with JSON
parse failures also giving the empty object. -/
def parsedBody (r : HttpResponse) : RemoteBody :=
  match r.body with
  | some b => b
  | none => { message := none, code := none, asStr := "\x7b\x7d" }

/-- _handle_response from src/app/services/backendless_client.py, lines 86
to 113: status_code >= 400 raises BackendlessClientError whose
status_code is the code field of the body when present, else the HTTP
status; otherwise the parsed body is returned. -/
def handle_response (r : HttpResponse) : Except BackendlessClientError RemoteBody :=
  let response_data := parsedBody r
  if 400 ≤ r.status_code then
    .error { message := response_data.message.getD "Unknown error occurred",
             status_code := some (response_data.code.getD (r.status_code : Int)),
             details := some response_data.asStr }
  else
    .ok response_data

/-- Outcome of one attempted HTTP request: a response, or one of the
transport-level exceptions the client catches (Timeout, ConnectionError,
or any other RequestException), each carrying its str() rendering. -/
inductive TransportOutcome where
  | response (r : HttpResponse)
  | timeout (detail : String)
  | connectionError (detail : String)
  | requestError (detail : String)
deriving DecidableEq, Repr

/-- The try/except pattern shared verbatim by every client method:
Timeout and ConnectionError become a fixed Failed-to-connect error with
no status code, any other RequestException becomes an operation-specific
error with no status code, and a received response goes to the handler. -/
def guardedCall {α : Type} (opErrorMessage : String) (outcome : TransportOutcome)
    (handler : HttpResponse → Except BackendlessClientError α) :
    Except BackendlessClientError α :=
  match outcome with
  | .response r => handler r
  | .timeout d =>
      .error { message := "Failed to connect to Backendless", status_code := none,
               details := some d }
  | .connectionError d =>
      .error { message := "Failed to connect to Backendless", status_code := none,
               details := some d }
  | .requestError d =>
      .error { message := opErrorMessage, status_code := none, details := some d }

/-- BackendlessClient.login (lines 119 to 160): POST to /users/login,
then the shared response/exception handling. -/
def BackendlessClient.login (outcome : TransportOutcome) :
    Except BackendlessClientError RemoteBody :=
  guardedCall "Error during authentication" outcome handle_response

/-- BackendlessClient.create (lines 166 to 204). -/
def BackendlessClient.create (table : String) (outcome : TransportOutcome) :
    Except BackendlessClientError RemoteBody :=
  guardedCall ("Error creating object in " ++ table) outcome handle_response

/-- BackendlessClient.get_by_id (lines 206 to 243). -/
def BackendlessClient.get_by_id (table : String) (outcome : TransportOutcome) :
    Except BackendlessClientError RemoteBody :=
  guardedCall ("Error retrieving object from " ++ table) outcome handle_response

/-- The pagination query parameters of a list call, after clamping, and
the where parameter when the where clause is truthy. -/
structure ListParams where
  pageSize : Int
  offset : Int
  whereParam : Option String
deriving DecidableEq, Repr

/-- The request parameters BackendlessClient.list (lines 245 to 303)
builds before performing the remote call:
page_size = min(max(1, page_size), 100), offset = max(0, offset), and
params gains a where key only when where_clause is truthy. -/
def BackendlessClient.listRequest (page_size : Int) (offset : Int)
    (where_clause : Option String) : ListParams :=
  { pageSize := min (max 1 page_size) 100,
    offset := max 0 offset,
    whereParam := truthyStr where_clause }

/-- BackendlessClient.list (lines 245 to 303): clamp the pagination
parameters, perform the GET with those parameters (returned as the first
component), then the shared handling (the second component). -/
def BackendlessClient.list (table : String) (page_size : Int) (offset : Int)
    (where_clause : Option String) (outcome : TransportOutcome) :
    ListParams × Except BackendlessClientError RemoteBody :=
  (BackendlessClient.listRequest page_size offset where_clause,
   guardedCall ("Error listing objects from " ++ table) outcome handle_response)

/-- BackendlessClient.update (lines 305 to 350). -/
def BackendlessClient.update (table : String) (outcome : TransportOutcome) :
    Except BackendlessClientError RemoteBody :=
  guardedCall ("Error updating object in " ++ table) outcome handle_response

/-- BackendlessClient.delete (lines 352 to 387): only statuses >= 400 go
through _handle_response; success returns no body. -/
def BackendlessClient.delete (table : String) (outcome : TransportOutcome) :
    Except BackendlessClientError Unit :=
  guardedCall ("Error deleting object from " ++ table) outcome
    (fun r => if 400 ≤ r.status_code then (handle_response r).map (fun _ => ()) else .ok ())

/-- BackendlessClient.count (lines 389 to 431). -/
def BackendlessClient.count (table : String) (outcome : TransportOutcome) :
    Except BackendlessClientError RemoteBody :=
  guardedCall ("Error counting objects in " ++ table) outcome handle_response

/-! ## Pydantic schemas (src/app/models/schemas.py)

A JSON request body field is modelled as Option (Option v):
none        = the key is absent from the body,
some none   = the key is present with the JSON value null,
some (some v) = the key is present with value v. -/

/-- The five admissible kind literals of SubjectCreate / SubjectUpdate. -/
def kinds : List String :=
  ["class", "exam", "task", "project", "other"]

/-- The raw JSON body of a subject create or update request, restricted to
the four declared fields (pydantic ignores extra keys). -/
structure SubjectBody where
  name : Option (Option String)
  code : Option (Option String)
  kind : Option (Option String)
  weeklyLoadHours : Option (Option Int)
deriving DecidableEq, Repr

/-- Validation of a required SubjectCreate string field (name, code):
the field must be present, a string (null fails), pass min_length 1, and
pass the validate_not_empty validator, which strips it.  An empty or
whitespace-only string fails (min_length rejects the empty string, the
validator rejects whitespace-only strings); otherwise the stripped value
is a stored. -/
def checkRequiredString : Option (Option String) → Except String String
  | none => .error "Field required"
  | some none => .error "Input should be a valid string"
  | some (some s) =>
      if pyStrip s = "" then .error "Field cannot be empty or whitespace only"
      else .ok (pyStrip s)

/-- Validation of an optional SubjectUpdate string field: an absent key
and an explicit null both validate to None; a present string must strip
to a non-empty value and is stored stripped. -/
def checkOptionalString : Option (Option String) → Except String (Option String)
  | none => .ok none
  | some none => .ok none
  | some (some s) =>
      if pyStrip s = "" then .error "Field cannot be empty or whitespace only"
      else .ok (some (pyStrip s))

/-- Validation of the SubjectCreate kind field: Literal with default
class; null is not admissible; a string must be one of the literals. -/
def checkRequiredKind : Option (Option String) → Except String String
  | none => .ok "class"
  | some none => .error "Input should be a valid literal"
  | some (some k) => if k ∈ kinds then .ok k else .error "Input should be a valid literal"

/-- Validation of the SubjectUpdate kind field: Optional Literal with
default None; null validates to None. -/
def checkOptionalKind : Option (Option String) → Except String (Option String)
  | none => .ok none
  | some none => .ok none
  | some (some k) => if k ∈ kinds then .ok (some k) else .error "Input should be a valid literal"

/-- Validation of the SubjectCreate weeklyLoadHours field: int with
default 4 and constraint ge 0; null is not admissible. -/
def checkRequiredWeekly : Option (Option Int) → Except String Int
  | none => .ok 4
  | some none => .error "Input should be a valid integer"
  | some (some w) => if 0 ≤ w then .ok w else .error "Input should be greater than or equal to 0"

/-- Validation of the SubjectUpdate weeklyLoadHours field: Optional int,
default None, constraint ge 0; null validates to None. -/
def checkOptionalWeekly : Option (Option Int) → Except String (Option Int)
  | none => .ok none
  | some none => .ok none
  | some (some w) =>
      if 0 ≤ w then .ok (some w) else .error "Input should be greater than or equal to 0"

/-- A validated SubjectCreate model instance. -/
structure SubjectCreateData where
  name : String
  code : String
  kind : String
  weeklyLoadHours : Int
deriving DecidableEq, Repr

/-- SubjectCreate(**body) from src/app/models/schemas.py, lines 72 to
122: name and code required stripped non-empty strings, kind an optional
literal defaulting to class, weeklyLoadHours an optional non-negative
integer defaulting to 4. -/
def validateSubjectCreate (b : SubjectBody) : Except String SubjectCreateData :=
  match checkRequiredString b.name with
  | .error e => .error e
  | .ok name =>
    match checkRequiredString b.code with
    | .error e => .error e
    | .ok code =>
      match checkRequiredKind b.kind with
      | .error e => .error e
      | .ok kind =>
        match checkRequiredWeekly b.weeklyLoadHours with
        | .error e => .error e
        | .ok w => .ok { name := name, code := code, kind := kind, weeklyLoadHours := w }

/-- model_dump() of a validated SubjectCreate: all four fields. -/
def SubjectCreateData.dump (d : SubjectCreateData) : List (String × Value) :=
  [("name", Value.str d.name), ("code", Value.str d.code),
   ("kind", Value.str d.kind), ("weeklyLoadHours", Value.int d.weeklyLoadHours)]

/-- A validated SubjectUpdate model instance: every field is an Option
with sentinel default None. -/
structure SubjectUpdateData where
  name : Option String
  code : Option String
  kind : Option String
  weeklyLoadHours : Option Int
deriving DecidableEq, Repr

/-- SubjectUpdate(**body) from src/app/models/schemas.py, lines 125 to
174: every field optional; a present string field must strip to
non-empty; an explicit null validates to None exactly like an absent
field. -/
def validateSubjectUpdate (b : SubjectBody) : Except String SubjectUpdateData :=
  match checkOptionalString b.name with
  | .error e => .error e
  | .ok name =>
    match checkOptionalString b.code with
    | .error e => .error e
    | .ok code =>
      match checkOptionalKind b.kind with
      | .error e => .error e
      | .ok kind =>
        match checkOptionalWeekly b.weeklyLoadHours with
        | .error e => .error e
        | .ok w => .ok { name := name, code := code, kind := kind, weeklyLoadHours := w }

/-- model_dump(exclude_none=True) of a validated SubjectUpdate: only the
fields whose value is not None appear. -/
def SubjectUpdateData.dumpExcludeNone (d : SubjectUpdateData) : List (String × Value) :=
  (match d.name with | some n => [("name", Value.str n)] | none => []) ++
  (match d.code with | some c => [("code", Value.str c)] | none => []) ++
  (match d.kind with | some k => [("kind", Value.str k)] | none => []) ++
  (match d.weeklyLoadHours with | some w => [("weeklyLoadHours", Value.int w)] | none => [])

/-- The raw JSON object the remote service returns for one subject, as
seen by the Subject response schema (absent keys are none). -/
structure RawSubject where
  objectId : Option String
  name : Option String
  code : Option String
  kind : Option String
  weeklyLoadHours : Option Int
  created : Option Int
  updated : Option Int
deriving DecidableEq, Repr

/-- A validated Subject response model (src/app/models/schemas.py, lines
177 to 225). -/
structure Subject where
  objectId : String
  name : String
  code : String
  kind : String
  weeklyLoadHours : Int
  created : Option Int
  updated : Option Int
deriving DecidableEq, Repr

/-- Subject(**payload): objectId, name and code are required strings (no
emptiness validator on this schema), kind defaults to class and must be
one of the literals, weeklyLoadHours defaults to 4 and must be >= 0,
created and updated are optional integers. -/
def Subject.validate (r : RawSubject) : Except String Subject :=
  match r.objectId, r.name, r.code with
  | some oid, some n, some c =>
    let k := r.kind.getD "class"
    if k ∈ kinds then
      let w := r.weeklyLoadHours.getD 4
      if 0 ≤ w then
        .ok { objectId := oid, name := n, code := c, kind := k, weeklyLoadHours := w,
              created := r.created, updated := r.updated }
      else .error "weeklyLoadHours"
    else .error "kind"
  | _, _, _ => .error "Field required"

/-- The list comprehension Subject(**subject) for subject in
subjects_data: validate each element, failing at the first invalid one. -/
def validateSubjects : List RawSubject → Except String (List Subject)
  | [] => .ok []
  | r :: rs =>
    match Subject.validate r with
    | .error e => .error e
    | .ok s =>
      match validateSubjects rs with
      | .error e => .error e
      | .ok ss => .ok (s :: ss)

/-! ## Route handlers (src/app/routes/subjects.py, src/app/middleware/auth.py)

Each handler is modelled as a function of the inbound request data and of
the remote outcomes of the gateway calls it would make, returning the
response together with the exact sequence of gateway invocations. -/

/-- One invocation of a BackendlessClient method, with its arguments. -/
inductive GatewayCall where
  | count (table : String) (whereClause : Option String) (token : Option String)
  | list (table : String) (params : ListParams) (token : Option String)
  | create (table : String) (payload : List (String × Value)) (token : Option String)
  | getById (table : String) (objectId : String) (token : Option String)
  | update (table : String) (objectId : String) (payload : List (String × Value))
      (token : Option String)
  | delete (table : String) (objectId : String) (token : Option String)
deriving DecidableEq, Repr

/-- The response a route handler (or an error handler it triggers)
produces. -/
inductive RouteResponse where
  | envelope (e : ErrorResponse)
  | paginated (total : Int) (count : Nat) (offset : Int) (results : List Subject) (status : Int)
  | subject (s : Subject) (status : Int)
  | noContent
deriving DecidableEq, Repr

/-- The HTTP status of a route response: an error envelope carries its
code, no_content_response is the fixed 204. -/
def RouteResponse.status : RouteResponse → Int
  | .envelope e => e.code
  | .paginated _ _ _ _ st => st
  | .subject _ st => st
  | .noContent => 204

/-- A handled request: the response and the gateway calls performed. -/
structure RouteResult where
  response : RouteResponse
  calls : List GatewayCall
deriving DecidableEq, Repr

/-- The 401 envelope produced by unauthorized_response with the message
require_auth passes (src/app/middleware/auth.py, line 52). -/
def unauthorizedEnvelope : ErrorResponse :=
  error_response "Token inválido o expirado" 401 none

/-- require_auth from src/app/middleware/auth.py, lines 19 to 61: read
the user-token header; when it is absent or falsy (the empty string),
return the 401 envelope without running the wrapped handler (hence with
no gateway call); otherwise run the handler with the token. -/
def require_auth (userToken : Option String) (handler : String → RouteResult) : RouteResult :=
  match userToken with
  | none => { response := .envelope unauthorizedEnvelope, calls := [] }
  | some t =>
      if t = "" then { response := .envelope unauthorizedEnvelope, calls := [] }
      else handler t

/-- The envelope handle_validation_error (error_handler.py, lines 40 to
66) builds from a pydantic ValidationError: always code 400, details
naming the first offending field. -/
def validationEnvelope (firstErrorMessage : String) : ErrorResponse :=
  error_response "Parámetros inválidos" 400 (some ("Campo: " ++ firstErrorMessage))

/-- The 400 envelope for a request whose body is not valid JSON
(bad_request_response in subjects.py). -/
def invalidJsonEnvelope : ErrorResponse :=
  error_response "Solicitud inválida" 400 (some "Request body must be valid JSON")

/-- The query parameters of GET /subjects, after Flask applies the
defaults pageSize=50, offset=0, code=None. -/
structure ListQuery where
  pageSize : Int
  offset : Int
  code : Option String
deriving DecidableEq, Repr

/-- The remote outcomes available to the list handler: the result of the
count call and the result of the list call. -/
structure ListRemote where
  countResult : Except BackendlessClientError Int
  listResult : Except BackendlessClientError (List RawSubject)
deriving DecidableEq, Repr

/-- The where clause built by list_subjects (subjects.py, lines 113 to
119): code=<squote><value><squote> when the code filter is truthy. -/
def buildWhereClause (code : Option String) : Option String :=
  match truthyStr code with
  | some c => some ("code=" ++ squote ++ c ++ squote)
  | none => none

/-- list_subjects from src/app/routes/subjects.py, lines 40 to 162:
require auth, build the filter, call count, call list with the raw
pageSize and offset (clamped inside the client), validate every returned
subject, and answer with paginated_response(results, total,
count=len(results), offset=offset) where offset is the raw query value. -/
def list_subjects (userToken : Option String) (q : ListQuery) (remote : ListRemote) :
    RouteResult :=
  require_auth userToken (fun t =>
    let where_clause := buildWhereClause q.code
    let countCall := GatewayCall.count "Subjects" where_clause (some t)
    match remote.countResult with
    | .error e => { response := .envelope (handle_backendless_error e), calls := [countCall] }
    | .ok total =>
      let params := BackendlessClient.listRequest q.pageSize q.offset where_clause
      let listCall := GatewayCall.list "Subjects" params (some t)
      match remote.listResult with
      | .error e =>
          { response := .envelope (handle_backendless_error e), calls := [countCall, listCall] }
      | .ok raws =>
        match validateSubjects raws with
        | .error msg =>
            { response := .envelope (validationEnvelope msg), calls := [countCall, listCall] }
        | .ok subs =>
            { response := .paginated total subs.length q.offset subs 200,
              calls := [countCall, listCall] })

/-- create_subject from src/app/routes/subjects.py, lines 165 to 275:
require auth, reject a non-JSON body with 400, validate with
SubjectCreate (a ValidationError yields the 400 envelope with no gateway
call), send model_dump() to the gateway create, validate the remote
response with Subject, and answer 201. -/
def create_subject (userToken : Option String) (body : Option SubjectBody)
    (remote : Except BackendlessClientError RawSubject) : RouteResult :=
  require_auth userToken (fun t =>
    match body with
    | none => { response := .envelope invalidJsonEnvelope, calls := [] }
    | some b =>
      match validateSubjectCreate b with
      | .error msg => { response := .envelope (validationEnvelope msg), calls := [] }
      | .ok d =>
        let call := GatewayCall.create "Subjects" d.dump (some t)
        match remote with
        | .error e => { response := .envelope (handle_backendless_error e), calls := [call] }
        | .ok raw =>
          match Subject.validate raw with
          | .error msg => { response := .envelope (validationEnvelope msg), calls := [call] }
          | .ok s => { response := .subject s 201, calls := [call] })

/-- get_subject from src/app/routes/subjects.py, lines 278 to 353. -/
def get_subject (userToken : Option String) (objectId : String)
    (remote : Except BackendlessClientError RawSubject) : RouteResult :=
  require_auth userToken (fun t =>
    let call := GatewayCall.getById "Subjects" objectId (some t)
    match remote with
    | .error e => { response := .envelope (handle_backendless_error e), calls := [call] }
    | .ok raw =>
      match Subject.validate raw with
      | .error msg => { response := .envelope (validationEnvelope msg), calls := [call] }
      | .ok s => { response := .subject s 200, calls := [call] })

/-- update_subject from src/app/routes/subjects.py, lines 356 to 469:
require auth, reject a non-JSON body with 400, validate with
SubjectUpdate, send model_dump(exclude_none=True) to the gateway update,
validate the remote response, and answer 200. -/
def update_subject (userToken : Option String) (objectId : String)
    (body : Option SubjectBody) (remote : Except BackendlessClientError RawSubject) :
    RouteResult :=
  require_auth userToken (fun t =>
    match body with
    | none => { response := .envelope invalidJsonEnvelope, calls := [] }
    | some b =>
      match validateSubjectUpdate b with
      | .error msg => { response := .envelope (validationEnvelope msg), calls := [] }
      | .ok d =>
        let call := GatewayCall.update "Subjects" objectId d.dumpExcludeNone (some t)
        match remote with
        | .error e => { response := .envelope (handle_backendless_error e), calls := [call] }
        | .ok raw =>
          match Subject.validate raw with
          | .error msg => { response := .envelope (validationEnvelope msg), calls := [call] }
          | .ok s => { response := .subject s 200, calls := [call] })

/-- delete_subject from src/app/routes/subjects.py, lines 472 to 540. -/
def delete_subject (userToken : Option String) (objectId : String)
    (remote : Except BackendlessClientError Unit) : RouteResult :=
  require_auth userToken (fun t =>
    let call := GatewayCall.delete "Subjects" objectId (some t)
    match remote with
    | .error e => { response := .envelope (handle_backendless_error e), calls := [call] }
    | .ok _ => { response := .noContent, calls := [call] })

/-- A registered API operation and whether its handler carries the
require_auth decorator. -/
structure Route where
  method : String
  path : String
  requiresAuth : Bool
deriving DecidableEq, Repr

/-- The operations registered by the auth and subjects blueprints
(src/app/routes/auth.py line 30, src/app/routes/subjects.py lines 40,
165, 278, 356, 472): login has no require_auth decorator, every subjects
handler has it. -/
def appRoutes : List Route :=
  [ { method := "POST", path := "/auth/login", requiresAuth := false },
    { method := "GET", path := "/subjects", requiresAuth := true },
    { method := "POST", path := "/subjects", requiresAuth := true },
    { method := "GET", path := "/subjects/<id>", requiresAuth := true },
    { method := "PUT", path := "/subjects/<id>", requiresAuth := true },
    { method := "DELETE", path := "/subjects/<id>", requiresAuth := true } ]

/-! ## Sample concrete inputs used by witnesses and counterexamples -/

/-- A remote subject record of the shape Backendless echoes back. -/
def sampleRaw : RawSubject :=
  { objectId := some "ABC123", name := some "Calculo I", code := some "CALC1",
    kind := some "class", weeklyLoadHours := some 4,
    created := some 1699564800000, updated := some 1699564800000 }

/-- The validated form of sampleRaw. -/
def sampleSubject : Subject :=
  { objectId := "ABC123", name := "Calculo I", code := "CALC1",
    kind := "class", weeklyLoadHours := 4,
    created := some 1699564800000, updated := some 1699564800000 }

/-- A concrete remote 404 response whose body carries the code 3000. -/
def sample404 : HttpResponse :=
  { status_code := 404,
    body := some { message := some "Entity not found", code := some 3000, asStr := "raw" } }

/-- The login operation in the route table. -/
def loginRoute : Route :=
  { method := "POST", path := "/auth/login", requiresAuth := false }

/-- An unauthorized RouteResult: the fixed 401 envelope, no gateway call. -/
def unauthorizedResult : RouteResult :=
  { response := .envelope unauthorizedEnvelope, calls := [] }

/-- The message of the error result of a gateway call, when it is one. -/
def errMessage {α : Type} : Except BackendlessClientError α → Option String
  | .error e => some e.message
  | .ok _ => none

/-! ## Claims -/

/-- C2: for every list call, the page size the remote request uses is
clamped into the inclusive range 1 to 100 and the offset is clamped to be
non-negative, before the call (the clamped parameters are exactly the
ones the remote GET carries, whatever the transport outcome); the
clamping is a total function, raising no error.  In particular pageSize
500 is forwarded as 100, pageSize 0 as 1, and offset -5 as 0. -/
theorem C2_list_clamping (ps off : Int) (wc : Option String) (table : String)
    (outcome : TransportOutcome) :
    (1 ≤ (BackendlessClient.listRequest ps off wc).pageSize
      ∧ (BackendlessClient.listRequest ps off wc).pageSize ≤ 100
      ∧ 0 ≤ (BackendlessClient.listRequest ps off wc).offset)
    ∧ (BackendlessClient.list table ps off wc outcome).fst
        = BackendlessClient.listRequest ps off wc
    ∧ (BackendlessClient.listRequest 500 off wc).pageSize = 100
    ∧ (BackendlessClient.listRequest 0 off wc).pageSize = 1
    ∧ (BackendlessClient.listRequest ps (-5) wc).offset = 0 := by
  refine ⟨⟨le_min (le_max_left _ _) (by norm_num), min_le_right _ _, le_max_left _ _⟩,
    rfl, ?_, ?_, ?_⟩ <;> norm_num [BackendlessClient.listRequest]

/-- C8: every remote HTTP response with status at least 400 makes the
gateway raise BackendlessClientError (never return the body as data),
and the status_code of the raised error is the code field of the
response body when present, else the HTTP status of the response. -/
theorem C8_error_response_conversion (r : HttpResponse) (h : 400 ≤ r.status_code) :
    ∃ e : BackendlessClientError, handle_response r = .error e
      ∧ e.status_code = some ((parsedBody r).code.getD (r.status_code : Int)) := by
  refine ⟨{ message := (parsedBody r).message.getD "Unknown error occurred",
            status_code := some ((parsedBody r).code.getD (r.status_code : Int)),
            details := some (parsedBody r).asStr }, ?_, rfl⟩
  simp [handle_response, h]

/-- C8 witness: a concrete 404 response whose body carries code 3000
raises an error with status_code 3000. -/
theorem C8_error_response_conversion_witness :
    ∃ e : BackendlessClientError, handle_response sample404 = .error e
      ∧ e.status_code = some ((parsedBody sample404).code.getD (sample404.status_code : Int)) :=
  C8_error_response_conversion sample404 (by decide)

/-- C9 counterexample: the message of the error raised on a connection
failure is the literal "Failed to connect to Backendless", not
"Failed to connect" as the claim states. -/
theorem C9_counterexample :
    errMessage (BackendlessClient.login (.connectionError "refused")) ≠ some "Failed to connect"
    ∧ errMessage (BackendlessClient.login (.connectionError "refused"))
        = some "Failed to connect to Backendless" := by
  decide

/-- C9 (amended): for every gateway operation, a timeout or connection
failure is re-raised as BackendlessClientError with the fixed message
"Failed to connect to Backendless" and status_code unset, and any other
transport-level exception is wrapped with an operation-specific message
and status_code unset. -/
theorem C9_transport_failure_wrapping (d table : String) (ps off : Int) (wc : Option String) :
    (BackendlessClient.login (.timeout d) =
        .error { message := "Failed to connect to Backendless", status_code := none,
                 details := some d })
  ∧ (BackendlessClient.login (.connectionError d) =
        .error { message := "Failed to connect to Backendless", status_code := none,
                 details := some d })
  ∧ (BackendlessClient.login (.requestError d) =
        .error { message := "Error during authentication", status_code := none,
                 details := some d })
  ∧ (BackendlessClient.create table (.timeout d) =
        .error { message := "Failed to connect to Backendless", status_code := none,
                 details := some d })
  ∧ (BackendlessClient.create table (.requestError d) =
        .error { message := "Error creating object in " ++ table, status_code := none,
                 details := some d })
  ∧ (BackendlessClient.get_by_id table (.connectionError d) =
        .error { message := "Failed to connect to Backendless", status_code := none,
                 details := some d })
  ∧ (BackendlessClient.get_by_id table (.requestError d) =
        .error { message := "Error retrieving object from " ++ table, status_code := none,
                 details := some d })
  ∧ ((BackendlessClient.list table ps off wc (.timeout d)).snd =
        .error { message := "Failed to connect to Backendless", status_code := none,
                 details := some d })
  ∧ ((BackendlessClient.list table ps off wc (.requestError d)).snd =
        .error { message := "Error listing objects from " ++ table, status_code := none,
                 details := some d })
  ∧ (BackendlessClient.update table (.connectionError d) =
        .error { message := "Failed to connect to Backendless", status_code := none,
                 details := some d })
  ∧ (BackendlessClient.update table (.requestError d) =
        .error { message := "Error updating object in " ++ table, status_code := none,
                 details := some d })
  ∧ (BackendlessClient.delete table (.timeout d) =
        .error { message := "Failed to connect to Backendless", status_code := none,
                 details := some d })
  ∧ (BackendlessClient.delete table (.requestError d) =
        .error { message := "Error deleting object from " ++ table, status_code := none,
                 details := some d })
  ∧ (BackendlessClient.count table (.connectionError d) =
        .error { message := "Failed to connect to Backendless", status_code := none,
                 details := some d })
  ∧ (BackendlessClient.count table (.requestError d) =
        .error { message := "Error counting objects in " ++ table, status_code := none,
                 details := some d }) :=
  ⟨rfl, rfl, rfl, rfl, rfl, rfl, rfl, rfl, rfl, rfl, rfl, rfl, rfl, rfl, rfl⟩

/-- C3: a subjects request whose user-token header is absent or empty
gets the 401 envelope with zero gateway calls, on all five subjects
routes; and among the registered operations the login route is the only
one without the require_auth decorator. -/
theorem C3_missing_token_unauthorized (tok : Option String)
    (htok : tok = none ∨ tok = some "")
    (q : ListQuery) (lr : ListRemote) (b : Option SubjectBody) (objectId : String)
    (rc rg ru : Except BackendlessClientError RawSubject)
    (rd : Except BackendlessClientError Unit) :
    (list_subjects tok q lr = unauthorizedResult)
  ∧ (create_subject tok b rc = unauthorizedResult)
  ∧ (get_subject tok objectId rg = unauthorizedResult)
  ∧ (update_subject tok objectId b ru = unauthorizedResult)
  ∧ (delete_subject tok objectId rd = unauthorizedResult)
  ∧ unauthorizedEnvelope.code = 401
  ∧ (∀ r ∈ appRoutes, r.requiresAuth = false ↔ r = loginRoute) := by
  rcases htok with rfl | rfl <;>
    exact ⟨rfl, rfl, rfl, rfl, rfl, rfl, by decide⟩

/-- C3 witness: the concrete no-header list request is answered 401 with
no gateway call, and the route table fact, via the theorem itself. -/
theorem C3_missing_token_unauthorized_witness :
    (list_subjects none { pageSize := 50, offset := 0, code := none }
        { countResult := .ok 1, listResult := .ok [sampleRaw] } = unauthorizedResult)
  ∧ (create_subject none none (.ok sampleRaw) = unauthorizedResult)
  ∧ (get_subject none "ABC123" (.ok sampleRaw) = unauthorizedResult)
  ∧ (update_subject none "ABC123" none (.ok sampleRaw) = unauthorizedResult)
  ∧ (delete_subject none "ABC123" (.ok ()) = unauthorizedResult)
  ∧ unauthorizedEnvelope.code = 401
  ∧ (∀ r ∈ appRoutes, r.requiresAuth = false ↔ r = loginRoute) :=
  C3_missing_token_unauthorized none (Or.inl rfl)
    { pageSize := 50, offset := 0, code := none }
    { countResult := .ok 1, listResult := .ok [sampleRaw] }
    none "ABC123" (.ok sampleRaw) (.ok sampleRaw) (.ok sampleRaw) (.ok ())

/-- The status mapping exactly as claim C1 words it: 404 when the
status_code is 404 or the lowercased message contains "not found", 401
when the status_code is 401 or the message contains "invalid", 403 for an
explicit 403, otherwise the original status_code, defaulting to 500 only
when status_code is unset. -/
def claimedStatusC1 (e : BackendlessClientError) : Int :=
  if e.status_code = some 404 ∨ pyIn "not found" (pyLower e.message) = true then 404
  else if e.status_code = some 401 ∨ pyIn "invalid" (pyLower e.message) = true then 401
  else if e.status_code = some 403 then 403
  else e.status_code.getD 500

/-- The status mapping as amended: identical to the claim except the
fallback of the final branch, which is 500 when the status_code is unset
or zero (Python or-truthiness), not only when it is unset. -/
def amendedStatusC1 (e : BackendlessClientError) : Int :=
  if e.status_code = some 404 ∨ pyIn "not found" (pyLower e.message) = true then 404
  else if e.status_code = some 401 ∨ pyIn "invalid" (pyLower e.message) = true then 401
  else if e.status_code = some 403 then 403
  else pyOr500 e.status_code

/-- The or-500 fallback agrees with the original status exactly on
values that are neither 0 nor 500. -/
theorem pyOr500_eq_iff (sc : Option Int) (m : Int) (h0 : m ≠ 0) (h500 : m ≠ 500) :
    pyOr500 sc = m ↔ sc = some m := by
  rcases sc with _ | n
  · simp only [pyOr500, Option.some.injEq]
    constructor <;> intro h
    · exact absurd h.symm h500
    · cases h
  · by_cases hn : n = 0
    · subst hn
      simp only [pyOr500, if_pos rfl, Option.some.injEq]
      constructor <;> intro h <;> omega
    · simp [pyOr500, hn]

/-- A remote error whose body carried code 0 and an unmatched message. -/
def zeroCodeError : BackendlessClientError :=
  { message := "boom", status_code := some 0, details := none }

/-- A remote error with no status and a not-found message. -/
def notFoundError : BackendlessClientError :=
  { message := "Entity Not Found", status_code := none, details := none }

/-- C1 counterexample: a remote error whose status_code is 0 (a value
Backendless uses in error bodies) and whose message carries none of the
matched substrings is answered with response code 500, while the claim
as worded requires the original status_code 0. -/
theorem C1_counterexample :
    (handle_backendless_error zeroCodeError).code ≠ claimedStatusC1 zeroCodeError
    ∧ (handle_backendless_error zeroCodeError).code = 500
    ∧ claimedStatusC1 zeroCodeError = 0 := by
  decide

/-- C1 (amended): the error handler maps every BackendlessClientError to
the HTTP status given by the claimed heuristic cascade, with the single
amendment that the final fallback is 500 when status_code is unset or
zero (not only when unset). -/
theorem C1_remote_error_status_mapping (e : BackendlessClientError) :
    (handle_backendless_error e).code = amendedStatusC1 e := by
  have h404 := pyOr500_eq_iff e.status_code 404 (by norm_num) (by norm_num)
  have h401 := pyOr500_eq_iff e.status_code 401 (by norm_num) (by norm_num)
  have h403 := pyOr500_eq_iff e.status_code 403 (by norm_num) (by norm_num)
  simp only [handle_backendless_error, amendedStatusC1, h404, h401, h403]
  split_ifs <;> simp [error_response]

/-- C1 witness: a concrete 404-by-substring error is mapped to 404 by
the amended cascade. -/
theorem C1_remote_error_status_mapping_witness :
    (handle_backendless_error notFoundError).code = amendedStatusC1 notFoundError
    ∧ amendedStatusC1 notFoundError = 404 :=
  ⟨C1_remote_error_status_mapping notFoundError, by decide⟩

/-- Inversion of a successful update validation: each validated field is
the result of its field check. -/
theorem validateSubjectUpdate_fields (b : SubjectBody) (d : SubjectUpdateData)
    (h : validateSubjectUpdate b = .ok d) :
    checkOptionalString b.name = .ok d.name ∧ checkOptionalString b.code = .ok d.code
    ∧ checkOptionalKind b.kind = .ok d.kind
    ∧ checkOptionalWeekly b.weeklyLoadHours = .ok d.weeklyLoadHours := by
  unfold validateSubjectUpdate at h
  rcases h1 : checkOptionalString b.name with e1 | name <;> rw [h1] at h
  · simp at h
  rcases h2 : checkOptionalString b.code with e2 | code <;> rw [h2] at h
  · simp at h
  rcases h3 : checkOptionalKind b.kind with e3 | kind <;> rw [h3] at h
  · simp at h
  rcases h4 : checkOptionalWeekly b.weeklyLoadHours with e4 | w <;> rw [h4] at h
  · simp at h
  obtain rfl : ({ name := name, code := code, kind := kind, weeklyLoadHours := w } :
      SubjectUpdateData) = d := by
    simpa using h
  exact ⟨rfl, rfl, rfl, rfl⟩

/-- A name entry appears in the exclude-none dump iff the validated name
is set; and likewise for the other three fields. -/
theorem mem_dumpExcludeNone (d : SubjectUpdateData) :
    ((∃ v, ("name", v) ∈ d.dumpExcludeNone) ↔ ∃ n, d.name = some n)
    ∧ ((∃ v, ("code", v) ∈ d.dumpExcludeNone) ↔ ∃ c, d.code = some c)
    ∧ ((∃ v, ("kind", v) ∈ d.dumpExcludeNone) ↔ ∃ k, d.kind = some k)
    ∧ ((∃ v, ("weeklyLoadHours", v) ∈ d.dumpExcludeNone) ↔ ∃ w, d.weeklyLoadHours = some w) := by
  rcases d with ⟨n, c, k, w⟩
  rcases n with _ | n <;> rcases c with _ | c <;> rcases k with _ | k <;> rcases w with _ | w <;>
    simp [SubjectUpdateData.dumpExcludeNone]

/-- A string field check that succeeds yields a set value exactly when
the body provided a (non-null) string. -/
theorem checkOptionalString_presence (x : Option (Option String)) (y : Option String)
    (h : checkOptionalString x = .ok y) :
    (∃ n, y = some n) ↔ ∃ s, x = some (some s) := by
  rcases x with _ | (_ | s)
  · obtain rfl : (none : Option String) = y := by simpa [checkOptionalString] using h
    simp
  · obtain rfl : (none : Option String) = y := by simpa [checkOptionalString] using h
    simp
  · by_cases hs : pyStrip s = ""
    · simp [checkOptionalString, hs] at h
    · obtain rfl : some (pyStrip s) = y := by simpa [checkOptionalString, hs] using h
      simp

/-- A kind field check that succeeds yields a set value exactly when the
body provided a (non-null) string. -/
theorem checkOptionalKind_presence (x : Option (Option String)) (y : Option String)
    (h : checkOptionalKind x = .ok y) :
    (∃ n, y = some n) ↔ ∃ s, x = some (some s) := by
  rcases x with _ | (_ | s)
  · obtain rfl : (none : Option String) = y := by simpa [checkOptionalKind] using h
    simp
  · obtain rfl : (none : Option String) = y := by simpa [checkOptionalKind] using h
    simp
  · by_cases hs : s ∈ kinds
    · obtain rfl : some s = y := by simpa [checkOptionalKind, hs] using h
      simp
    · simp [checkOptionalKind, hs] at h

/-- A weekly-load field check that succeeds yields a set value exactly
when the body provided a (non-null) integer. -/
theorem checkOptionalWeekly_presence (x : Option (Option Int)) (y : Option Int)
    (h : checkOptionalWeekly x = .ok y) :
    (∃ n, y = some n) ↔ ∃ w, x = some (some w) := by
  rcases x with _ | (_ | w)
  · obtain rfl : (none : Option Int) = y := by simpa [checkOptionalWeekly] using h
    simp
  · obtain rfl : (none : Option Int) = y := by simpa [checkOptionalWeekly] using h
    simp
  · by_cases hw : (0 : Int) ≤ w
    · obtain rfl : some w = y := by simpa [checkOptionalWeekly, hw] using h
      simp
    · simp [checkOptionalWeekly, hw] at h

/-- Every kind literal strips to a non-empty string, so no
whitespace-only string is a kind literal. -/
theorem kinds_strip_ne (s : String) (hs : s ∈ kinds) : pyStrip s ≠ "" := by
  fin_cases hs <;> decide

/-- The empty JSON update body. -/
def emptyBody : SubjectBody :=
  { name := none, code := none, kind := none, weeklyLoadHours := none }

/-- The validated form of the empty update body: everything unset. -/
def emptyUpdate : SubjectUpdateData :=
  { name := none, code := none, kind := none, weeklyLoadHours := none }

/-- C4: in SubjectUpdate every one of the four fields is optional — the
empty object validates to the all-unset record, whose downstream payload
is empty (a no-op); a field explicitly set to an empty or
whitespace-only string fails validation (for each of the three
string-typed fields); and a field absent from the body stays unset (not
defaulted) and never appears in the payload sent to the gateway. -/
theorem C4_update_optional_fields :
    (validateSubjectUpdate emptyBody = .ok emptyUpdate)
  ∧ (SubjectUpdateData.dumpExcludeNone emptyUpdate = [])
  ∧ (∀ s : String, pyStrip s = "" → ∀ b : SubjectBody,
        (validateSubjectUpdate { b with name := some (some s) }).isOk = false
      ∧ (validateSubjectUpdate { b with code := some (some s) }).isOk = false
      ∧ (validateSubjectUpdate { b with kind := some (some s) }).isOk = false)
  ∧ (∀ (b : SubjectBody) (d : SubjectUpdateData), validateSubjectUpdate b = .ok d →
        (b.name = none → d.name = none ∧ ∀ v, ("name", v) ∉ d.dumpExcludeNone)
      ∧ (b.code = none → d.code = none ∧ ∀ v, ("code", v) ∉ d.dumpExcludeNone)
      ∧ (b.kind = none → d.kind = none ∧ ∀ v, ("kind", v) ∉ d.dumpExcludeNone)
      ∧ (b.weeklyLoadHours = none → d.weeklyLoadHours = none
            ∧ ∀ v, ("weeklyLoadHours", v) ∉ d.dumpExcludeNone)) := by
  refine ⟨rfl, rfl, ?_, ?_⟩
  · intro s hs b
    refine ⟨?_, ?_, ?_⟩
    · cases hval : validateSubjectUpdate { b with name := some (some s) } with
      | error e => rfl
      | ok d =>
        exfalso
        have hname := (validateSubjectUpdate_fields _ _ hval).1
        simp [checkOptionalString, hs] at hname
    · cases hval : validateSubjectUpdate { b with code := some (some s) } with
      | error e => rfl
      | ok d =>
        exfalso
        have hcode := (validateSubjectUpdate_fields _ _ hval).2.1
        simp [checkOptionalString, hs] at hcode
    · cases hval : validateSubjectUpdate { b with kind := some (some s) } with
      | error e => rfl
      | ok d =>
        exfalso
        have hkd := (validateSubjectUpdate_fields _ _ hval).2.2.1
        have hk : s ∉ kinds := fun hmem => kinds_strip_ne s hmem hs
        simp [checkOptionalKind, hk] at hkd
  · intro b d h
    obtain ⟨h1, h2, h3, h4⟩ := validateSubjectUpdate_fields b d h
    obtain ⟨m1, m2, m3, m4⟩ := mem_dumpExcludeNone d
    refine ⟨?_, ?_, ?_, ?_⟩
    · intro hb
      rw [hb] at h1
      have hdn : d.name = none := by simpa [checkOptionalString] using h1.symm
      refine ⟨hdn, fun v hv => ?_⟩
      rcases m1.mp ⟨v, hv⟩ with ⟨n, hn⟩
      rw [hdn] at hn
      cases hn
    · intro hb
      rw [hb] at h2
      have hdc : d.code = none := by simpa [checkOptionalString] using h2.symm
      refine ⟨hdc, fun v hv => ?_⟩
      rcases m2.mp ⟨v, hv⟩ with ⟨c, hc⟩
      rw [hdc] at hc
      cases hc
    · intro hb
      rw [hb] at h3
      have hdk : d.kind = none := by simpa [checkOptionalKind] using h3.symm
      refine ⟨hdk, fun v hv => ?_⟩
      rcases m3.mp ⟨v, hv⟩ with ⟨k, hk⟩
      rw [hdk] at hk
      cases hk
    · intro hb
      rw [hb] at h4
      have hdw : d.weeklyLoadHours = none := by simpa [checkOptionalWeekly] using h4.symm
      refine ⟨hdw, fun v hv => ?_⟩
      rcases m4.mp ⟨v, hv⟩ with ⟨w, hw⟩
      rw [hdw] at hw
      cases hw

/-- C4 witness: the whitespace-only name " " is rejected by the update
validation, via the theorem at the empty body. -/
theorem C4_update_optional_fields_witness :
    (validateSubjectUpdate { emptyBody with name := some (some " ") }).isOk = false :=
  (C4_update_optional_fields.2.2.1 " " (by decide) emptyBody).1

/-- C5 counterexample: the body providing name as an explicit JSON null
is a different body than the empty one, yet it validates to the same
record, sends the same (empty) payload downstream, and the whole update
request is answered identically — absence is not distinguishable from an
explicit null. -/
theorem C5_counterexample :
    ({ emptyBody with name := some none } ≠ emptyBody)
  ∧ validateSubjectUpdate { emptyBody with name := some none }
      = validateSubjectUpdate emptyBody
  ∧ update_subject (some "token1") "ABC123" (some { emptyBody with name := some none })
        (.ok sampleRaw)
      = update_subject (some "token1") "ABC123" (some emptyBody) (.ok sampleRaw) := by
  decide

/-- C5 (amended): the update payload is a fixed record with sentinel
default None in which an explicit null and an absent field validate
identically; a field reaches the downstream payload exactly when the
body explicitly provides it with a non-null value. -/
theorem C5_update_null_vs_absent :
    (∀ b : SubjectBody,
        validateSubjectUpdate { b with name := some none }
          = validateSubjectUpdate { b with name := none }
      ∧ validateSubjectUpdate { b with code := some none }
          = validateSubjectUpdate { b with code := none }
      ∧ validateSubjectUpdate { b with kind := some none }
          = validateSubjectUpdate { b with kind := none }
      ∧ validateSubjectUpdate { b with weeklyLoadHours := some none }
          = validateSubjectUpdate { b with weeklyLoadHours := none })
  ∧ (∀ (b : SubjectBody) (d : SubjectUpdateData), validateSubjectUpdate b = .ok d →
        ((∃ v, ("name", v) ∈ d.dumpExcludeNone) ↔ ∃ s, b.name = some (some s))
      ∧ ((∃ v, ("code", v) ∈ d.dumpExcludeNone) ↔ ∃ s, b.code = some (some s))
      ∧ ((∃ v, ("kind", v) ∈ d.dumpExcludeNone) ↔ ∃ s, b.kind = some (some s))
      ∧ ((∃ v, ("weeklyLoadHours", v) ∈ d.dumpExcludeNone)
            ↔ ∃ w, b.weeklyLoadHours = some (some w))) := by
  constructor
  · intro b
    exact ⟨rfl, rfl, rfl, rfl⟩
  · intro b d h
    obtain ⟨h1, h2, h3, h4⟩ := validateSubjectUpdate_fields b d h
    obtain ⟨m1, m2, m3, m4⟩ := mem_dumpExcludeNone d
    exact ⟨m1.trans (checkOptionalString_presence _ _ h1),
           m2.trans (checkOptionalString_presence _ _ h2),
           m3.trans (checkOptionalKind_presence _ _ h3),
           m4.trans (checkOptionalWeekly_presence _ _ h4)⟩

/-- C5 witness: the theorem applied to the empty body and its validated
form. -/
theorem C5_update_null_vs_absent_witness :
    (validateSubjectUpdate { emptyBody with name := some none }
        = validateSubjectUpdate { emptyBody with name := none })
  ∧ ((∃ v, ("name", v) ∈ SubjectUpdateData.dumpExcludeNone emptyUpdate)
        ↔ ∃ s, emptyBody.name = some (some s)) :=
  ⟨(C5_update_null_vs_absent.1 emptyBody).1,
    (C5_update_null_vs_absent.2 emptyBody emptyUpdate (by decide)).1⟩

/-- Inversion of a successful create validation: each validated field is
the result of its field check. -/
theorem validateSubjectCreate_fields (b : SubjectBody) (d : SubjectCreateData)
    (h : validateSubjectCreate b = .ok d) :
    checkRequiredString b.name = .ok d.name ∧ checkRequiredString b.code = .ok d.code
    ∧ checkRequiredKind b.kind = .ok d.kind
    ∧ checkRequiredWeekly b.weeklyLoadHours = .ok d.weeklyLoadHours := by
  unfold validateSubjectCreate at h
  rcases h1 : checkRequiredString b.name with e1 | name <;> rw [h1] at h
  · simp at h
  rcases h2 : checkRequiredString b.code with e2 | code <;> rw [h2] at h
  · simp at h
  rcases h3 : checkRequiredKind b.kind with e3 | kind <;> rw [h3] at h
  · simp at h
  rcases h4 : checkRequiredWeekly b.weeklyLoadHours with e4 | w <;> rw [h4] at h
  · simp at h
  obtain rfl : ({ name := name, code := code, kind := kind, weeklyLoadHours := w } :
      SubjectCreateData) = d := by
    simpa using h
  exact ⟨rfl, rfl, rfl, rfl⟩

/-- A create body whose name is a non-empty but whitespace-only string. -/
def wsNameBody : SubjectBody :=
  { name := some (some " "), code := some (some "CALC1"), kind := none,
    weeklyLoadHours := none }

/-- C6 counterexample: the body with name " " and code "CALC1" has a
non-empty name and a non-empty code, yet create validation fails and the
gateway is never invoked (the request is answered 400). -/
theorem C6_counterexample :
    (" " ≠ "") ∧ ("CALC1" ≠ "")
  ∧ (validateSubjectCreate wsNameBody).isOk = false
  ∧ (create_subject (some "token1") (some wsNameBody) (.ok sampleRaw)).calls = []
  ∧ (create_subject (some "token1") (some wsNameBody) (.ok sampleRaw)).response.status
      = 400 := by
  decide

/-- C6 (amended): for every authorized create request whose name and
code are strings that remain non-empty after stripping surrounding
whitespace, and whose kind and weeklyLoadHours are absent or valid,
validation succeeds and the stripped name and code are forwarded
unchanged inside the payload of the single gateway create call. -/
theorem C6_create_forwards_stripped (t : String) (ht : ¬ t = "") (b : SubjectBody)
    (n c : String) (hbn : b.name = some (some n)) (hbc : b.code = some (some c))
    (hn : ¬ pyStrip n = "") (hc : ¬ pyStrip c = "")
    (hk : b.kind = none ∨ ∃ k, b.kind = some (some k) ∧ k ∈ kinds)
    (hw : b.weeklyLoadHours = none ∨ ∃ w, b.weeklyLoadHours = some (some w) ∧ 0 ≤ w)
    (remote : Except BackendlessClientError RawSubject) :
    ∃ d : SubjectCreateData, validateSubjectCreate b = .ok d
      ∧ d.name = pyStrip n ∧ d.code = pyStrip c
      ∧ ("name", Value.str (pyStrip n)) ∈ d.dump ∧ ("code", Value.str (pyStrip c)) ∈ d.dump
      ∧ (create_subject (some t) (some b) remote).calls
          = [GatewayCall.create "Subjects" d.dump (some t)] := by
  obtain ⟨K, hK⟩ : ∃ K, checkRequiredKind b.kind = .ok K := by
    rcases hk with hk | ⟨k, hk, hkm⟩
    · exact ⟨"class", by rw [hk]; rfl⟩
    · exact ⟨k, by rw [hk]; simp [checkRequiredKind, hkm]⟩
  obtain ⟨W, hW⟩ : ∃ W, checkRequiredWeekly b.weeklyLoadHours = .ok W := by
    rcases hw with hw | ⟨w, hw, hwm⟩
    · exact ⟨4, by rw [hw]; rfl⟩
    · exact ⟨w, by rw [hw]; simp [checkRequiredWeekly, hwm]⟩
  have hval : validateSubjectCreate b
      = .ok { name := pyStrip n, code := pyStrip c, kind := K, weeklyLoadHours := W } := by
    unfold validateSubjectCreate
    rw [hbn, hbc, hK, hW]
    simp [checkRequiredString, hn, hc]
  refine ⟨_, hval, rfl, rfl, ?_, ?_, ?_⟩
  · simp [SubjectCreateData.dump]
  · simp [SubjectCreateData.dump]
  · simp only [create_subject, require_auth, if_neg ht, hval]
    cases remote with
    | error e => rfl
    | ok raw =>
      cases hsv : Subject.validate raw with
      | error m => simp [hsv]
      | ok s => simp [hsv]

/-- A create body for the C6 witness. -/
def createBody : SubjectBody :=
  { name := some (some " Calculus I "), code := some (some "CALC1"), kind := none,
    weeklyLoadHours := none }

/-- C6 witness: the theorem applied to a concrete authorized create
request with a name needing stripping. -/
theorem C6_create_forwards_stripped_witness :
    ∃ d : SubjectCreateData, validateSubjectCreate createBody = .ok d
      ∧ d.name = pyStrip " Calculus I " ∧ d.code = pyStrip "CALC1"
      ∧ ("name", Value.str (pyStrip " Calculus I ")) ∈ d.dump
      ∧ ("code", Value.str (pyStrip "CALC1")) ∈ d.dump
      ∧ (create_subject (some "token1") (some createBody) (.ok sampleRaw)).calls
          = [GatewayCall.create "Subjects" d.dump (some "token1")] :=
  C6_create_forwards_stripped "token1" (by decide) createBody " Calculus I " "CALC1"
    rfl rfl (by decide) (by decide) (Or.inl rfl) (Or.inl rfl) (.ok sampleRaw)

/-- C7 counterexample: an update body whose kind key is explicitly
present with the JSON value null — a value outside the five literals —
nevertheless validates, and the gateway update is invoked (the request
succeeds with 200). -/
theorem C7_counterexample :
    ({ emptyBody with kind := some none } : SubjectBody).kind = some none
  ∧ (validateSubjectUpdate { emptyBody with kind := some none }).isOk = true
  ∧ (update_subject (some "token1") "ABC123" (some { emptyBody with kind := some none })
        (.ok sampleRaw)).calls ≠ []
  ∧ (update_subject (some "token1") "ABC123" (some { emptyBody with kind := some none })
        (.ok sampleRaw)).response.status = 200 := by
  decide

/-- C7 (amended): for every authorized create or update request whose
weeklyLoadHours is explicitly a negative integer, or whose kind is
explicitly a string outside the five literals, validation fails with a
400 error envelope and the gateway is never invoked.  (An explicit null
kind in an update body is, by contrast, accepted and treated as absent.) -/
theorem C7_invalid_fields_rejected (t : String) (ht : ¬ t = "") (b : SubjectBody)
    (objectId : String) (rc ru : Except BackendlessClientError RawSubject)
    (hbad : (∃ w, b.weeklyLoadHours = some (some w) ∧ w < 0)
          ∨ (∃ k, b.kind = some (some k) ∧ k ∉ kinds)) :
    ((create_subject (some t) (some b) rc).response.status = 400
      ∧ (create_subject (some t) (some b) rc).calls = [])
  ∧ ((update_subject (some t) objectId (some b) ru).response.status = 400
      ∧ (update_subject (some t) objectId (some b) ru).calls = []) := by
  obtain ⟨m1, hm1⟩ : ∃ m, validateSubjectCreate b = .error m := by
    cases hval : validateSubjectCreate b with
    | error m => exact ⟨m, rfl⟩
    | ok d =>
      exfalso
      rcases hbad with ⟨w, hbw, hneg⟩ | ⟨k, hbk, hkm⟩
      · have hwf := (validateSubjectCreate_fields _ _ hval).2.2.2
        rw [hbw] at hwf
        simp [checkRequiredWeekly, not_le.mpr hneg] at hwf
      · have hkf := (validateSubjectCreate_fields _ _ hval).2.2.1
        rw [hbk] at hkf
        simp [checkRequiredKind, hkm] at hkf
  obtain ⟨m2, hm2⟩ : ∃ m, validateSubjectUpdate b = .error m := by
    cases hval : validateSubjectUpdate b with
    | error m => exact ⟨m, rfl⟩
    | ok d =>
      exfalso
      rcases hbad with ⟨w, hbw, hneg⟩ | ⟨k, hbk, hkm⟩
      · have hwf := (validateSubjectUpdate_fields _ _ hval).2.2.2
        rw [hbw] at hwf
        simp [checkOptionalWeekly, not_le.mpr hneg] at hwf
      · have hkf := (validateSubjectUpdate_fields _ _ hval).2.2.1
        rw [hbk] at hkf
        simp [checkOptionalKind, hkm] at hkf
  refine ⟨⟨?_, ?_⟩, ⟨?_, ?_⟩⟩ <;>
    simp [create_subject, update_subject, require_auth, if_neg ht, hm1, hm2,
      validationEnvelope, error_response, RouteResponse.status]

/-- An update body carrying a negative weekly load. -/
def negWeeklyBody : SubjectBody :=
  { name := none, code := none, kind := none, weeklyLoadHours := some (some (-3)) }

/-- C7 witness: the theorem applied to a concrete authorized request
whose weeklyLoadHours is -3. -/
theorem C7_invalid_fields_rejected_witness :
    ((create_subject (some "token1") (some negWeeklyBody) (.ok sampleRaw)).response.status = 400
      ∧ (create_subject (some "token1") (some negWeeklyBody) (.ok sampleRaw)).calls = [])
  ∧ ((update_subject (some "token1") "ABC123" (some negWeeklyBody)
        (.ok sampleRaw)).response.status = 400
      ∧ (update_subject (some "token1") "ABC123" (some negWeeklyBody)
            (.ok sampleRaw)).calls = []) :=
  C7_invalid_fields_rejected "token1" (by decide) negWeeklyBody "ABC123"
    (.ok sampleRaw) (.ok sampleRaw) (Or.inl ⟨-3, rfl, by decide⟩)

/-- C10: for every authorized list request whose gateway calls both
succeed and whose returned subjects all validate, the paginated envelope
carries the caller-supplied offset exactly as given (before clamping)
and a count equal to the length of its results list, while the remote
list call itself used the clamped offset max 0 offset. -/
theorem C10_paginated_envelope (t : String) (ht : ¬ t = "") (q : ListQuery) (total : Int)
    (raws : List RawSubject) (subs : List Subject)
    (hv : validateSubjects raws = .ok subs) :
    (list_subjects (some t) q { countResult := .ok total, listResult := .ok raws }).response
        = .paginated total subs.length q.offset subs 200
    ∧ (list_subjects (some t) q { countResult := .ok total, listResult := .ok raws }).calls
        = [GatewayCall.count "Subjects" (buildWhereClause q.code) (some t),
           GatewayCall.list "Subjects"
             (BackendlessClient.listRequest q.pageSize q.offset (buildWhereClause q.code))
             (some t)]
    ∧ (BackendlessClient.listRequest q.pageSize q.offset (buildWhereClause q.code)).offset
        = max 0 q.offset := by
  refine ⟨?_, ?_, rfl⟩ <;> simp [list_subjects, require_auth, if_neg ht, hv]

/-- The list query of the C10 witness: offset -5. -/
def negOffsetQuery : ListQuery :=
  { pageSize := 50, offset := -5, code := none }

/-- C10 witness: a concrete request with offset -5 is answered with an
envelope whose offset is -5 and whose count is the length of its single
result, while the remote call used offset 0 = max 0 (-5). -/
theorem C10_paginated_envelope_witness :
    (list_subjects (some "token1") negOffsetQuery
          { countResult := .ok 1, listResult := .ok [sampleRaw] }).response
        = .paginated 1 [sampleSubject].length negOffsetQuery.offset [sampleSubject] 200
    ∧ (list_subjects (some "token1") negOffsetQuery
          { countResult := .ok 1, listResult := .ok [sampleRaw] }).calls
        = [GatewayCall.count "Subjects" (buildWhereClause negOffsetQuery.code) (some "token1"),
           GatewayCall.list "Subjects"
             (BackendlessClient.listRequest negOffsetQuery.pageSize negOffsetQuery.offset
               (buildWhereClause negOffsetQuery.code))
             (some "token1")]
    ∧ (BackendlessClient.listRequest negOffsetQuery.pageSize negOffsetQuery.offset
          (buildWhereClause negOffsetQuery.code)).offset
        = max 0 negOffsetQuery.offset :=
  C10_paginated_envelope "token1" (by decide) negOffsetQuery 1 [sampleRaw] [sampleSubject]
    (by decide)

end Backend
